import Mathlib

/-!
Shallow embedding of the conversational chatbot session of the Kisan.JI
frontend (src/frontend/src/components/Chatbot.js together with the voice
endpoints of src/frontend/src/services/api.js).

External collaborators (the HTTP transcription service, the HTTP chat
service, the browser microphone) are modelled as oracle parameters: each
network call's outcome is an input to the embedded function, and the
function describes exactly what the component code does with that outcome.
Execution order of the side effects inside one handler is recorded as a
trace of events, so that ordering claims (which call runs while the
microphone is still held, whether the chat service is ever contacted) can
be stated.
-/

namespace Kisanji

/-- Message role, the `role` field of a chat message object. -/
inductive Role where
  | user
  | assistant
  deriving DecidableEq, Repr

/-- A chat message as built by Chatbot.js: `role`, `content`, optional
`isVoice` flag and optional `language` field (absent fields modelled as
the defaults `false` / `none`). -/
structure Message where
  role : Role
  content : String
  isVoice : Bool := false
  language : Option String := none
  deriving DecidableEq, Repr

/-- The initial greeting message of the `messages` state
(Chatbot.js lines 13-18). -/
def greetingMessage : Message :=
  { role := .assistant
    content := "Hello! I am Kisan.JI AI Assistant powered by Gemini. Ask me anything about farming, crops, weather, or government schemes!" }

/-- The apology message appended by the catch branch of
`processVoiceInput` (Chatbot.js lines 152-155). -/
def apologyMessage : Message :=
  { role := .assistant
    content := "Sorry, I had trouble understanding. Please try speaking again or type your question." }

/-- The hard-coded fallback replies of `handleSend`
(Chatbot.js lines 61-67). -/
def fallbackResponses : List String :=
  [ "Based on your location, I recommend planting wheat this season for optimal yield.",
    "The weather forecast shows good conditions for spraying in the next 2 days.",
    "Current market prices in your nearest mandi show rice at ₹2,100 per quintal.",
    "For pest control, I suggest using neem-based organic pesticides.",
    "You may be eligible for the PM-KISAN scheme. Visit your nearest CSC for registration." ]

/-- State of the `MediaRecorder` held in `mediaRecorderRef`:
either no active recorder / an inactive one, or one in state "recording". -/
inductive RecorderState where
  | inactive
  | recording
  deriving DecidableEq, Repr

/-- The component state of Chatbot.js that the session logic touches:
the `messages` list, the text `input`, the three busy flags and the
recording machinery (`audioChunksRef` as a list of chunks, each chunk a
list of bytes; `mediaRecorderRef`'s state). -/
structure ChatbotState where
  messages : List Message
  input : String
  isListening : Bool
  isProcessing : Bool
  isLoading : Bool
  audioChunks : List (List Nat)
  recorderState : RecorderState
  deriving DecidableEq, Repr

/-- The initial component state (Chatbot.js lines 12-25). -/
def initialState : ChatbotState :=
  { messages := [greetingMessage]
    input := ""
    isListening := false
    isProcessing := false
    isLoading := false
    audioChunks := []
    recorderState := .inactive }

/-- Body of the `/voice/transcribe` response:
`{ success: bool, text: string, language: string }`. -/
structure TranscribeResult where
  success : Bool
  text : String
  language : String
  deriving DecidableEq, Repr

/-- Outcome of one `api.transcribeAudio` call as observed by the caller:
either the promise resolves with a parsed body, or it rejects (network
error or non-ok HTTP status, api.js lines 408-411). -/
inductive TranscribeOutcome where
  | ok (r : TranscribeResult)
  | fail
  deriving DecidableEq, Repr

/-- Outcome of one `api.voiceChat` call as observed by the caller:
either the promise resolves with `{ response, language }`, or it
rejects. -/
inductive ChatOutcome where
  | ok (response : String) (language : String)
  | fail
  deriving DecidableEq, Repr

/-- JavaScript `a || b` on strings: the left value unless it is falsy
(the empty string). -/
def jsOr (a b : String) : String :=
  if a = "" then b else a

/-- JavaScript `String.prototype.trim`, modelled structurally on the
character list: drop leading and trailing whitespace. -/
def jsTrim (s : String) : String :=
  String.mk (((s.data.dropWhile Char.isWhitespace).reverse.dropWhile
    Char.isWhitespace).reverse)

/-- Events of the voice pipeline, in the order the handler performs them:
invoking the transcription endpoint (with the blob it sends), invoking the
chat endpoint, appending a message, stopping the microphone tracks. -/
inductive Ev where
  | transcribeCall (blob : List Nat)
  | chatCall
  | appendMsg (m : Message)
  | micRelease
  deriving DecidableEq, Repr

/-- Result of running one async handler: the component state afterwards
and the trace of its side effects in execution order. -/
structure StepResult where
  state : ChatbotState
  trace : List Ev
  deriving DecidableEq, Repr

/-- Embedding of `processVoiceInput(audioBlob)` (Chatbot.js lines
115-159). `tr` is the outcome of the `api.transcribeAudio` call, `chat`
the outcome of the `api.voiceChat` call (consulted only when the code
reaches it), `componentLang` the `language` value from the language
context. The handler sets `isProcessing` to true, unconditionally awaits
the transcription call, and:
- on a rejected transcription (or chat) promise appends the apology
  message (catch branch);
- on a resolved transcription with `success && text` truthy appends the
  voice user message, awaits the chat call and appends the assistant
  reply;
- on a resolved transcription without `success && text` does nothing;
finally `isProcessing` is reset to false. -/
def processVoiceInput (st : ChatbotState) (audioBlob : List Nat)
    (tr : TranscribeOutcome) (chat : ChatOutcome)
    (componentLang : String) : StepResult :=
  let st0 := { st with isProcessing := true }
  match tr with
  | .fail =>
      { state := { st0 with
          messages := st0.messages ++ [apologyMessage]
          isProcessing := false }
        trace := [.transcribeCall audioBlob, .appendMsg apologyMessage] }
  | .ok r =>
      if r.success ∧ r.text ≠ "" then
        let detectedLang := jsOr r.language componentLang
        let userMsg : Message :=
          { role := .user, content := r.text, isVoice := true
            language := some detectedLang }
        let st1 := { st0 with messages := st0.messages ++ [userMsg] }
        match chat with
        | .ok resp rlang =>
            let assistantMsg : Message :=
              { role := .assistant, content := resp, language := some rlang }
            { state := { st1 with
                messages := st1.messages ++ [assistantMsg]
                isProcessing := false }
              trace := [.transcribeCall audioBlob, .appendMsg userMsg,
                        .chatCall, .appendMsg assistantMsg] }
        | .fail =>
            { state := { st1 with
                messages := st1.messages ++ [apologyMessage]
                isProcessing := false }
              trace := [.transcribeCall audioBlob, .appendMsg userMsg,
                        .chatCall, .appendMsg apologyMessage] }
      else
        { state := { st0 with isProcessing := false }
          trace := [.transcribeCall audioBlob] }

/-- Embedding of the `onstop` handler installed by `startRecording`
(Chatbot.js lines 90-96): build the blob from the accumulated chunks,
await `processVoiceInput`, and only then stop the microphone stream's
tracks. -/
def onstopHandler (st : ChatbotState) (tr : TranscribeOutcome)
    (chat : ChatOutcome) (componentLang : String) : StepResult :=
  let audioBlob := st.audioChunks.flatten
  let step := processVoiceInput st audioBlob tr chat componentLang
  { step with trace := step.trace ++ [.micRelease] }

/-- Embedding of `handleSend` (Chatbot.js lines 37-73). The guard
`!input.trim() || isLoading` returns without touching anything; otherwise
the user message is appended, `input` cleared, `isLoading` set, the chat
call awaited; on success the assistant reply is appended, on failure a
fallback reply chosen by `fallbackIdx` (the `Math.random` draw); finally
`isLoading` is reset. -/
def handleSend (st : ChatbotState) (chat : ChatOutcome)
    (fallbackIdx : Fin fallbackResponses.length) : StepResult :=
  if jsTrim st.input = "" ∨ st.isLoading then
    { state := st, trace := [] }
  else
    let userMessage : Message := { role := .user, content := st.input }
    let st1 := { st with
      messages := st.messages ++ [userMessage]
      input := ""
      isLoading := true }
    match chat with
    | .ok resp rlang =>
        let assistantMsg : Message :=
          { role := .assistant, content := resp, language := some rlang }
        { state := { st1 with
            messages := st1.messages ++ [assistantMsg]
            isLoading := false }
          trace := [.appendMsg userMessage, .chatCall, .appendMsg assistantMsg] }
    | .fail =>
        let randomResponse := fallbackResponses.get fallbackIdx
        let fallbackMsg : Message := { role := .assistant, content := randomResponse }
        { state := { st1 with
            messages := st1.messages ++ [fallbackMsg]
            isLoading := false }
          trace := [.appendMsg userMessage, .chatCall, .appendMsg fallbackMsg] }

/-- Embedding of `startRecording` (Chatbot.js lines 76-104). `micGranted`
is whether `getUserMedia` resolves. On success a fresh recorder is
installed, the chunk list is reset to empty, recording starts and
`isListening` is set; on failure an alert is shown and the state is left
unchanged. There is no check of the current recorder or listening
state. -/
def startRecording (st : ChatbotState) (micGranted : Bool) : ChatbotState :=
  if micGranted then
    { st with
      audioChunks := []
      recorderState := .recording
      isListening := true }
  else
    st

/-- Embedding of the `ondataavailable` handler (Chatbot.js lines 84-88):
a chunk is pushed only when its size is positive. -/
def ondataavailable (st : ChatbotState) (chunk : List Nat) : ChatbotState :=
  if chunk.length > 0 then
    { st with audioChunks := st.audioChunks ++ [chunk] }
  else
    st

/-- Embedding of the synchronous part of `stopRecording` (Chatbot.js
lines 107-112): if the recorder is in state "recording", stop it and
clear `isListening`; otherwise do nothing. (The asynchronous `onstop`
handler that fires afterwards is `onstopHandler`.) -/
def stopRecording (st : ChatbotState) : ChatbotState :=
  if st.recorderState = .recording then
    { st with recorderState := .inactive, isListening := false }
  else
    st

/-- Which branch `handleVoiceInput` took. -/
inductive MicAction where
  | stoppedRecording
  | startedRecording
  | startFailed
  deriving DecidableEq, Repr

/-- Embedding of `handleVoiceInput` (Chatbot.js lines 162-168): while
`isListening` the press stops the recording, otherwise it starts one. -/
def handleVoiceInput (st : ChatbotState) (micGranted : Bool) :
    ChatbotState × MicAction :=
  if st.isListening then
    (stopRecording st, .stoppedRecording)
  else
    (startRecording st micGranted,
     if micGranted then .startedRecording else .startFailed)

/-- Result of one `api.transcribeAudio` call as a whole, recording
whether the HTTP request was issued. -/
structure ApiCall where
  networkCalled : Bool
  outcome : TranscribeOutcome
  deriving DecidableEq, Repr

/-- Embedding of `api.transcribeAudio(audioBlob, farmerId)` (api.js lines
397-414): the blob and optional farmer id are packed into form data and
the fetch is performed unconditionally — the function inspects neither
the blob's size nor its emptiness. `httpOk` is whether the response has
an ok status and `body` the parsed response body: on a non-ok status the
function throws, otherwise it returns the body. -/
def transcribeAudio (audioBlob : List Nat) (farmerId : Option String)
    (httpOk : Bool) (body : TranscribeResult) : ApiCall :=
  let _ := farmerId
  let _ := audioBlob
  { networkCalled := true
    outcome := if httpOk then .ok body else .fail }

/-- C1: for every voice interaction in which the transcription call fails,
exactly one locally-generated apology message is appended to the
transcript and the session returns to idle (`isProcessing` cleared); the
chat service is never contacted, so the session never reaches the
awaiting-reply stage, and the handler terminates. -/
theorem C1_transcription_failure_recovery (st : ChatbotState)
    (audioBlob : List Nat) (chat : ChatOutcome) (componentLang : String) :
    (processVoiceInput st audioBlob .fail chat componentLang).state =
      { st with messages := st.messages ++ [apologyMessage], isProcessing := false } ∧
    Ev.chatCall ∉ (processVoiceInput st audioBlob .fail chat componentLang).trace := by
  constructor
  · rfl
  · simp [processVoiceInput]

/-- C2 counterexample: stopping a recording that captured zero audio
bytes still invokes the transcription client — the `onstop` handler of a
recording-active state with an empty chunk list produces a
`transcribeCall` event carrying the empty blob, contradicting the claim
that the transcription client is never invoked in that case. -/
theorem C2_counterexample :
    Ev.transcribeCall [] ∈
      (onstopHandler
        { initialState with recorderState := .recording, isListening := true }
        .fail .fail "en").trace := by
  simp [onstopHandler, processVoiceInput, initialState]

/-- C2 amended: stopping a recording always invokes the transcription
client with the blob assembled from the captured chunks — including the
empty blob when zero bytes were captured; the zero-byte case is not
special-cased and the session step is not discarded. -/
theorem C2_stop_always_transcribes (st : ChatbotState)
    (tr : TranscribeOutcome) (chat : ChatOutcome) (componentLang : String) :
    Ev.transcribeCall st.audioChunks.flatten ∈
      (onstopHandler st tr chat componentLang).trace := by
  cases tr with
  | fail => simp [onstopHandler, processVoiceInput]
  | ok r =>
      by_cases h : r.success ∧ r.text ≠ ""
      · cases chat <;> simp [onstopHandler, processVoiceInput, h]
      · simp [onstopHandler, processVoiceInput, h]

/-- C3 counterexample: in a successful voice interaction the microphone
release event is the last event of the handler's trace, strictly after
the transcription call event that opens it — so the transcription network
call is in flight while the microphone stream is still held, contradicting
the claim that the device is released before any other component runs. -/
theorem C3_counterexample :
    (onstopHandler { initialState with recorderState := .recording, isListening := true, audioChunks := [[1, 2]] } (.ok { success := true, text := "hi", language := "en" }) (.ok "reply" "en") "en").trace.head? = some (Ev.transcribeCall [1, 2]) ∧
    (onstopHandler { initialState with recorderState := .recording, isListening := true, audioChunks := [[1, 2]] } (.ok { success := true, text := "hi", language := "en" }) (.ok "reply" "en") "en").trace.getLast? = some Ev.micRelease := by
  constructor
  · rfl
  · rfl

/-- C3 amended: the microphone stream's tracks are stopped only after
`processVoiceInput` completes — in every voice interaction the release is
the final event of the `onstop` handler, and the transcription call is the
first, so the network calls run while the microphone is still held. -/
theorem C3_mic_released_last (st : ChatbotState) (tr : TranscribeOutcome)
    (chat : ChatOutcome) (componentLang : String) :
    (onstopHandler st tr chat componentLang).trace.head? =
      some (Ev.transcribeCall st.audioChunks.flatten) ∧
    (onstopHandler st tr chat componentLang).trace.getLast? =
      some Ev.micRelease := by
  constructor
  · cases tr with
    | fail => rfl
    | ok r =>
        by_cases h : r.success ∧ r.text ≠ ""
        · cases chat <;> simp [onstopHandler, processVoiceInput, h]
        · simp [onstopHandler, processVoiceInput, h]
  · cases tr with
    | fail => rfl
    | ok r =>
        by_cases h : r.success ∧ r.text ≠ ""
        · cases chat <;> simp [onstopHandler, processVoiceInput, h]
        · simp [onstopHandler, processVoiceInput, h]

/-- C4: for every submitted message on which the chat call fails, exactly
one assistant message is appended after the user message, its content a
fallback reply drawn from the fixed five-element fallback list. -/
theorem C4_response_failure_fallback (st : ChatbotState)
    (idx : Fin fallbackResponses.length)
    (h1 : jsTrim st.input ≠ "") (h2 : st.isLoading = false) :
    (handleSend st .fail idx).state.messages =
      st.messages ++
        [{ role := .user, content := st.input },
         { role := .assistant, content := fallbackResponses.get idx }] ∧
    fallbackResponses.get idx ∈ fallbackResponses := by
  constructor
  · simp [handleSend, h1, h2]
  · exact fallbackResponses.get_mem idx.1 idx.2

/-- C4 witness at a concrete state. -/
theorem C4_witness :
    (jsTrim "hi" ≠ "") ∧
    ((handleSend { initialState with input := "hi" } .fail ⟨0, by decide⟩).state.messages =
      [greetingMessage] ++
        [{ role := .user, content := "hi" },
         { role := .assistant, content := fallbackResponses.get ⟨0, by decide⟩ }] ∧
      fallbackResponses.get ⟨0, by decide⟩ ∈ fallbackResponses) :=
  ⟨by decide, C4_response_failure_fallback _ _ (by decide) rfl⟩

/-- C5 counterexample: `api.transcribeAudio` performs the network call
for the empty buffer and for a buffer above the 10 MB limit alike — no
buffer is rejected before the fetch, contradicting the claim that empty
and oversized buffers are rejected before the network call. -/
theorem C5_counterexample :
    (transcribeAudio [] none true { success := true, text := "", language := "" }).networkCalled = true ∧
    (transcribeAudio (List.replicate 10485761 0) none true { success := true, text := "", language := "" }).networkCalled = true :=
  ⟨rfl, rfl⟩

/-- C5 amended: `transcribeAudio` performs no client-side validation of
the capture buffer: the network call is made for every buffer, empty or
oversized, and the call fails exactly when the HTTP response status is
not ok. -/
theorem C5_no_client_validation (audioBlob : List Nat)
    (farmerId : Option String) (httpOk : Bool) (body : TranscribeResult) :
    (transcribeAudio audioBlob farmerId httpOk body).networkCalled = true ∧
    ((transcribeAudio audioBlob farmerId httpOk body).outcome = .fail ↔ httpOk = false) := by
  refine ⟨rfl, ?_⟩
  cases httpOk <;> simp [transcribeAudio]

/-- C6: for every non-blank submitted text on which the chat call
succeeds, the transcript gains exactly the user message with the
submitted content followed by the assistant message with the returned
reply, in that order, and the session returns to idle (`isLoading`
cleared, `input` emptied). -/
theorem C6_text_success (st : ChatbotState) (resp rlang : String)
    (idx : Fin fallbackResponses.length)
    (h1 : jsTrim st.input ≠ "") (h2 : st.isLoading = false) :
    (handleSend st (.ok resp rlang) idx).state =
      { st with
        messages := st.messages ++
          [{ role := .user, content := st.input },
           { role := .assistant, content := resp, language := some rlang }]
        input := ""
        isLoading := false } := by
  simp [handleSend, h1, h2]

/-- C6 witness at the spec's end-to-end scenario 1. -/
theorem C6_witness :
    (jsTrim "What crop should I plant?" ≠ "") ∧
    (handleSend { initialState with input := "What crop should I plant?" } (.ok "Try wheat this season" "en") ⟨0, by decide⟩).state =
      { initialState with
        messages := [greetingMessage] ++
          [{ role := .user, content := "What crop should I plant?" },
           { role := .assistant, content := "Try wheat this season", language := some "en" }]
        input := ""
        isLoading := false } :=
  ⟨by decide, C6_text_success _ _ _ _ (by decide) rfl⟩

/-- C7: blank (empty or whitespace-only) text input is rejected by the
guard before any state transition: the component state is returned
unchanged and no message is appended, no call made. -/
theorem C7_empty_input_rejected (st : ChatbotState) (chat : ChatOutcome)
    (idx : Fin fallbackResponses.length) (h : jsTrim st.input = "") :
    handleSend st chat idx = { state := st, trace := [] } := by
  simp [handleSend, h]

/-- C7 witness at a whitespace-only input. -/
theorem C7_witness :
    (jsTrim "   " = "") ∧
    handleSend { initialState with input := "   " } .fail ⟨0, by decide⟩ =
      { state := { initialState with input := "   " }, trace := [] } :=
  ⟨by decide, C7_empty_input_rejected _ _ _ (by decide)⟩

/-- C8 counterexample: `startRecording` has no already-recording guard:
invoked while a recording with a non-empty capture buffer is active, it
is not rejected — it starts a fresh recording and clears the capture
buffer, mutating `audioChunks`, contradicting the claim that a second
start is rejected without mutating the capture buffer. -/
theorem C8_counterexample :
    (startRecording { initialState with isListening := true, recorderState := .recording, audioChunks := [[1]] } true).audioChunks ≠
      ({ initialState with isListening := true, recorderState := .recording, audioChunks := [[1]] } : ChatbotState).audioChunks ∧
    (startRecording { initialState with isListening := true, recorderState := .recording, audioChunks := [[1]] } true).isListening = true := by
  constructor
  · simp [startRecording, initialState]
  · rfl

/-- C8 amended: there is no `AlreadyRecording` rejection. While
`isListening`, the mic control stops the current recording instead of
starting a second one, and that synchronous step leaves the transcript
and capture buffer untouched; a direct `startRecording` call during an
active recording is not rejected — it installs a new recorder, clears
the capture buffer and leaves the transcript unchanged. -/
theorem C8_no_already_recording_guard (st st2 : ChatbotState) (g : Bool)
    (h : st.isListening = true) :
    handleVoiceInput st g = (stopRecording st, .stoppedRecording) ∧
    (stopRecording st).messages = st.messages ∧
    (stopRecording st).audioChunks = st.audioChunks ∧
    (startRecording st2 true).audioChunks = [] ∧
    (startRecording st2 true).recorderState = .recording ∧
    (startRecording st2 true).messages = st2.messages := by
  refine ⟨by simp [handleVoiceInput, h], ?_, ?_, rfl, rfl, rfl⟩
  · cases hrec : st.recorderState <;> simp [stopRecording, hrec]
  · cases hrec : st.recorderState <;> simp [stopRecording, hrec]

/-- C8 witness at a concrete recording-active state. -/
theorem C8_witness :
    (({ initialState with isListening := true, recorderState := .recording } : ChatbotState).isListening = true) ∧
    (handleVoiceInput { initialState with isListening := true, recorderState := .recording } true =
      (stopRecording { initialState with isListening := true, recorderState := .recording }, .stoppedRecording) ∧
    (stopRecording { initialState with isListening := true, recorderState := .recording }).messages =
      ({ initialState with isListening := true, recorderState := .recording } : ChatbotState).messages ∧
    (stopRecording { initialState with isListening := true, recorderState := .recording }).audioChunks =
      ({ initialState with isListening := true, recorderState := .recording } : ChatbotState).audioChunks ∧
    (startRecording initialState true).audioChunks = [] ∧
    (startRecording initialState true).recorderState = .recording ∧
    (startRecording initialState true).messages = initialState.messages) :=
  ⟨rfl, C8_no_already_recording_guard _ _ _ rfl⟩

/-- C9: when the transcription call resolves but with `success` false or
an empty `text`, the voice step appends nothing, contacts the chat
service never, surfaces no error, and leaves the state unchanged apart
from clearing `isProcessing`. -/
theorem C9_unsuccessful_transcription_noop (st : ChatbotState)
    (audioBlob : List Nat) (r : TranscribeResult) (chat : ChatOutcome)
    (componentLang : String) (h : r.success = false ∨ r.text = "") :
    processVoiceInput st audioBlob (.ok r) chat componentLang =
      { state := { st with isProcessing := false }
        trace := [.transcribeCall audioBlob] } := by
  have hcond : ¬(r.success = true ∧ r.text ≠ "") := by
    rcases h with h | h <;> simp [h]
  simp only [processVoiceInput]
  rw [if_neg]
  exact hcond

/-- C9 witness at a `success = false` response body. -/
theorem C9_witness :
    (({ success := false, text := "hello", language := "en" } : TranscribeResult).success = false ∨
      ({ success := false, text := "hello", language := "en" } : TranscribeResult).text = "") ∧
    processVoiceInput initialState [] (.ok { success := false, text := "hello", language := "en" }) .fail "en" =
      { state := { initialState with isProcessing := false }
        trace := [.transcribeCall []] } :=
  ⟨Or.inl rfl, C9_unsuccessful_transcription_noop _ _ _ _ _ (Or.inl rfl)⟩

/-- C10: a freshly constructed session's transcript is non-empty: it
holds exactly the assistant greeting message, so its head exists and has
role assistant. -/
theorem C10_initial_transcript_greeting :
    initialState.messages = [greetingMessage] ∧
    greetingMessage.role = .assistant ∧
    initialState.messages ≠ [] ∧
    initialState.messages.head? = some greetingMessage := by
  refine ⟨rfl, rfl, ?_, rfl⟩
  simp [initialState]

end Kisanji
